import Mathlib

/-!
Shallow embedding of `src/webhook_server.py` (TradingView → Hyperliquid
automation).  The single endpoint `handle_webhook` is modelled as a pure
function from the configuration, an exchange-oracle environment (the results
the external exchange would return for each call) and the parsed JSON payload
to a result together with the trace of external effects (gateway calls,
Discord notifications, sleeps), in program order.  Floats are modelled as
rationals; Python's truthiness-based `or` on optional numbers is modelled
explicitly by `pyOr`.
-/

namespace TVHL

/-- Environment-variable configuration (lines 24–29 of the source).
`TRADINGVIEW_SECRET` is `os.getenv`, hence optional. -/
structure Config where
  TRADINGVIEW_SECRET : Option String
  LEVERAGE : Int
  DEFAULT_SYMBOL : String
deriving Repr

/-- Parsed JSON payload of a webhook request: `data.get("secret")`,
`data.get("action")` (default `""`), `data.get("symbol")` (default
`DEFAULT_SYMBOL`). -/
structure Payload where
  secret : Option String
  action : Option String
  symbol : Option String
deriving Repr, DecidableEq

/-- One raw element of the list returned by `exchange.fetch_positions`:
`pos.get("symbol")` and `pos.get("info", {}).get("position", {}).get("szi")`. -/
structure PosRaw where
  symbol : Option String
  szi : Option Rat
deriving Repr, DecidableEq

/-- Raw `exchange.fetch_balance` response, restricted to the fields the code
reads: both CCXT styles `resp["USDC"][k]` and `resp[k]["USDC"]`. -/
structure BalanceResp where
  usdcTotal : Option Rat
  usdcFree : Option Rat
  usdcUsed : Option Rat
  totalUsdc : Option Rat
  freeUsdc : Option Rat
  usedUsdc : Option Rat
deriving Repr, DecidableEq

/-- Result of `get_perp_usdc`: `{"total": total, "hold": used, "free": free}`. -/
structure Usdc where
  total : Rat
  hold : Rat
  free : Rat
deriving Repr, DecidableEq

/-- Exchange oracle: what each external call would return during one request.
`orderResult k` is the outcome of the k-th `create_order` call of the run. -/
structure Env where
  tickerLast : Except String (Option Rat)
  positions : Except String (List PosRaw)
  balance : Except String BalanceResp
  orderResult : Nat → Except String Nat

/-- Discord notification contents (the argument of `notify_discord`),
abstracted from the f-string formatting. -/
inductive Msg where
  | fetchTickerFailed (symbol : String) (err : String)
  | flatDone (symbol : String) (price : Rat)
  | flatFailed (symbol : String) (err : String)
  | flatNoPosition (symbol : String) (price : Rat)
  | closedOpposing (symbol : String) (price : Rat)
  | closeOpposingFailed (symbol : String) (err : String)
  | orderFailedMsg (symbol : String) (act : String) (price : Rat) (err : String)
  | orderOk (symbol : String) (act : String) (price : Rat)
deriving Repr, DecidableEq

/-- Externally visible effects of one request, in program order. -/
inductive Event where
  | fetchTicker (symbol : String)
  | fetchPositions (symbol : String)
  | fetchBalance
  | createOrder (symbol otype side : String) (amount price : Rat)
      (reduceOnly : Bool) (leverage : Int)
  | notify (m : Msg)
  | sleep (seconds : Nat)
deriving Repr, DecidableEq

/-- Reason attached to an `HTTPException` raised by the handler. -/
inductive ErrReason where
  | invalidSecret
  | priceFetch (err : String)
  | flatClose (err : String)
  | unknownAction (act : String)
  | closeOpposing (err : String)
  | balanceFetch (err : String)
  | insufficientUsdc (free hold : Rat)
  | orderFailed (err : String)
deriving Repr, DecidableEq

/-- HTTP outcome of one request: an `HTTPException` with status code, or one
of the three JSON success bodies of the source. -/
inductive HResult where
  | httpError (code : Nat) (reason : ErrReason)
  | closed (orderId : Nat)
  | noPosition
  | ok (act : String) (orderId : Nat)
deriving Repr, DecidableEq

/-- Python `x or y` on an optional float: `None` and `0.0` are falsy. -/
def pyOr (a b : Option Rat) : Option Rat :=
  match a with
  | none => b
  | some v => if v = 0 then b else a

/-- `float(x or 0.0)` on an optional float. -/
def pyFloatOr0 (a : Option Rat) : Rat := (pyOr a (some 0)).getD 0

/-- Embedding of `get_perp_usdc` (lines 93–115): on fetch failure the
`HTTPException(502, ...)` propagates as an error; otherwise both CCXT styles
are combined with Python `or` and missing values default to 0. -/
def get_perp_usdc (env : Env) : Except String Usdc :=
  match env.balance with
  | .error e => .error e
  | .ok resp =>
    let total := pyFloatOr0 (pyOr resp.usdcTotal resp.totalUsdc)
    let free := pyFloatOr0 (pyOr resp.usdcFree resp.freeUsdc)
    let used := pyFloatOr0 (pyOr resp.usdcUsed resp.usedUsdc)
    .ok { total := total, hold := used, free := free }

/-- Embedding of line 221:
`amount = (usdc["free"] * LEVERAGE) / price if price > 0 else 0`. -/
def computeAmount (free : Rat) (leverage : Int) (price : Rat) : Rat :=
  if price > 0 then free * (leverage : Rat) / price else 0

/-- Python `str.strip()` on the character list: drop whitespace from both
ends. -/
def pyStripList (l : List Char) : List Char :=
  ((l.dropWhile Char.isWhitespace).reverse.dropWhile Char.isWhitespace).reverse

/-- Python `str.strip()`. -/
def pyStrip (s : String) : String := ⟨pyStripList s.data⟩

/-- Python `str.upper()` (ASCII case mapping). -/
def pyUpper (s : String) : String := ⟨s.data.map Char.toUpper⟩

/-- Normalisation of the `action` field (line 134):
`str(data.get("action", "")).strip().upper()`. -/
def normAction (p : Payload) : String := pyUpper (pyStrip (p.action.getD ""))

/-- Normalisation of the `symbol` field (line 135):
`str(data.get("symbol", DEFAULT_SYMBOL)).strip()`. -/
def normSymbol (cfg : Config) (p : Payload) : String :=
  pyStrip (p.symbol.getD cfg.DEFAULT_SYMBOL)

/-- Embedding of the FLAT loop (lines 150–165): scan positions; on the first
entry matching the symbol with nonzero signed size `szi`, submit a reduce-only
market close, notify, and return its order; errors abort the loop.  Exactly
one `create_order` call can occur, so it consumes `orderResult 0`. -/
def flatLoop (cfg : Config) (env : Env) (symbol : String) (price : Rat) :
    List PosRaw → List Event × Except String (Option Nat)
  | [] => ([], .ok none)
  | pos :: rest =>
    if pos.symbol = some symbol then
      let size := pyFloatOr0 pos.szi
      if size = 0 then flatLoop cfg env symbol price rest
      else
        let amt := |size|
        let side := if size > 0 then "sell" else "buy"
        let ev := Event.createOrder symbol "market" side amt price true cfg.LEVERAGE
        match env.orderResult 0 with
        | .error e => ([ev], .error e)
        | .ok oid => ([ev, .notify (.flatDone symbol price)], .ok (some oid))
    else flatLoop cfg env symbol price rest

/-- Embedding of the close-opposing loop (lines 181–200): for every position
matching the symbol whose sign opposes the desired side, submit a reduce-only
market close, notify, and sleep 2 seconds; the loop continues over the whole
list.  `k` counts `create_order` calls made so far; the final count is
returned for the subsequent entry order. -/
def closeLoop (cfg : Config) (env : Env) (act symbol : String) (price : Rat) :
    List PosRaw → Nat → List Event × Except String Nat
  | [], k => ([], .ok k)
  | pos :: rest, k =>
    if pos.symbol = some symbol then
      let cur := pos.szi.getD 0
      if (act = "BUY" ∧ cur < 0) ∨ (act = "SELL" ∧ cur > 0) then
        let amt := |cur|
        let side := if cur < 0 then "buy" else "sell"
        let ev := Event.createOrder symbol "market" side amt price true cfg.LEVERAGE
        match env.orderResult k with
        | .error e => ([ev], .error e)
        | .ok _ =>
          let next := closeLoop cfg env act symbol price rest (k + 1)
          (ev :: .notify (.closedOpposing symbol price) :: .sleep 2 :: next.1, next.2)
      else closeLoop cfg env act symbol price rest k
    else closeLoop cfg env act symbol price rest k

/-- Body of `handle_webhook` after authentication, given the normalised
action and symbol; the `fetch_ticker` event itself is emitted by the caller
(it is unconditionally the first gateway call, line 140).  Follows lines
138–235 of the source step by step. -/
def execCore (cfg : Config) (env : Env) (act symbol : String) :
    HResult × List Event :=
  match env.tickerLast with
  | .error e =>
    (.httpError 502 (.priceFetch e), [.notify (.fetchTickerFailed symbol e)])
  | .ok last =>
    let price := pyFloatOr0 last
    if act = "FLAT" then
      match env.positions with
      | .error e =>
        (.httpError 500 (.flatClose e),
         [.fetchPositions symbol, .notify (.flatFailed symbol e)])
      | .ok ps =>
        let r := flatLoop cfg env symbol price ps
        match r.2 with
        | .error e =>
          (.httpError 500 (.flatClose e),
           .fetchPositions symbol :: r.1 ++ [.notify (.flatFailed symbol e)])
        | .ok (some oid) => (.closed oid, .fetchPositions symbol :: r.1)
        | .ok none =>
          (.noPosition,
           .fetchPositions symbol :: r.1 ++ [.notify (.flatNoPosition symbol price)])
    else if act ≠ "BUY" ∧ act ≠ "SELL" then
      (.httpError 400 (.unknownAction act), [])
    else
      match env.positions with
      | .error e =>
        (.httpError 500 (.closeOpposing e),
         [.fetchPositions symbol, .notify (.closeOpposingFailed symbol e)])
      | .ok ps =>
        let r := closeLoop cfg env act symbol price ps 0
        match r.2 with
        | .error e =>
          (.httpError 500 (.closeOpposing e),
           .fetchPositions symbol :: r.1 ++ [.notify (.closeOpposingFailed symbol e)])
        | .ok k =>
          let evs := .fetchPositions symbol :: r.1 ++ [Event.fetchBalance]
          match get_perp_usdc env with
          | .error e => (.httpError 502 (.balanceFetch e), evs)
          | .ok usdc =>
            if usdc.free ≤ 0 then
              (.httpError 400 (.insufficientUsdc usdc.free usdc.hold), evs)
            else
              let side := if act = "BUY" then "buy" else "sell"
              let amount := computeAmount usdc.free cfg.LEVERAGE price
              let ev := Event.createOrder symbol "market" side amount price false cfg.LEVERAGE
              match env.orderResult k with
              | .error e =>
                (.httpError 500 (.orderFailed e),
                 evs ++ [ev, .notify (.orderFailedMsg symbol act price e)])
              | .ok oid =>
                (.ok act oid, evs ++ [ev, .notify (.orderOk symbol act price)])

/-- Embedding of `handle_webhook` (lines 118–235), from a successfully parsed
JSON object: authentication check (line 130) then the trading body, whose
first external call is always the ticker fetch. -/
def handle_webhook (cfg : Config) (env : Env) (p : Payload) :
    HResult × List Event :=
  if p.secret = cfg.TRADINGVIEW_SECRET then
    ((execCore cfg env (normAction p) (normSymbol cfg p)).1,
     .fetchTicker (normSymbol cfg p) ::
       (execCore cfg env (normAction p) (normSymbol cfg p)).2)
  else
    (.httpError 401 .invalidSecret, [])

/-- A request triggers a Trade Executor run iff it produces at least one
gateway effect (the executor body always begins with the ticker fetch). -/
def runTriggered (cfg : Config) (env : Env) (p : Payload) : Bool :=
  !(handle_webhook cfg env p).2.isEmpty

/-- Number of Trade Executor runs triggered by a sequence of requests, each
paired with the exchange oracle it observed. -/
def runsTriggered (cfg : Config) : List (Env × Payload) → Nat
  | [] => 0
  | ep :: rest =>
    (if runTriggered cfg ep.1 ep.2 then 1 else 0) + runsTriggered cfg rest

/-- Sizing policy as the spec words it:
`size(freeMargin, leverage, price, safetyFactor) =
 (freeMargin * safetyFactor * leverage) / price`. -/
def sizeSpec (freeMargin : Rat) (leverage : Int) (price safetyFactor : Rat) : Rat :=
  freeMargin * safetyFactor * (leverage : Rat) / price

/-! ### Concrete fixtures used by counterexamples and witnesses -/

/-- Concrete configuration: the deployed defaults (`LEVERAGE = 5`,
`SYMBOL = "BTC/USDC:USDC"`) with a set webhook secret. -/
def cfg0 : Config :=
  { TRADINGVIEW_SECRET := some "s3cret", LEVERAGE := 5,
    DEFAULT_SYMBOL := "BTC/USDC:USDC" }

/-- An authenticated BUY payload for the default symbol. -/
def pBuy : Payload :=
  { secret := some "s3cret", action := some "BUY",
    symbol := some "BTC/USDC:USDC" }

/-- An authenticated SELL payload for the default symbol. -/
def pSell : Payload :=
  { secret := some "s3cret", action := some "SELL",
    symbol := some "BTC/USDC:USDC" }

/-- An authenticated FLAT payload for the default symbol. -/
def pFlat : Payload :=
  { secret := some "s3cret", action := some "FLAT",
    symbol := some "BTC/USDC:USDC" }

/-- An authenticated payload with an unknown action (normalises to `"HOLD"`). -/
def pHold : Payload :=
  { secret := some "s3cret", action := some " hold ",
    symbol := some "BTC/USDC:USDC" }

/-- A payload carrying a wrong secret. -/
def pWrong : Payload :=
  { secret := some "nope", action := some "BUY",
    symbol := some "BTC/USDC:USDC" }

/-- Balance response with 100 free USDC. -/
def bal100 : BalanceResp :=
  { usdcTotal := some 100, usdcFree := some 100, usdcUsed := some 0,
    totalUsdc := none, freeUsdc := none, usedUsdc := none }

/-- Balance response with 0.5 free USDC. -/
def balHalf : BalanceResp :=
  { usdcTotal := some (1/2), usdcFree := some (1/2), usdcUsed := some 0,
    totalUsdc := none, freeUsdc := none, usedUsdc := none }

/-- Oracle: price 10, no open positions, 100 free USDC, orders succeed. -/
def envEntry : Env :=
  { tickerLast := .ok (some 10), positions := .ok [],
    balance := .ok bal100, orderResult := fun k => .ok (k + 1) }

/-- Oracle: price 10, no open positions, 0.5 free USDC, orders succeed. -/
def envHalf : Env :=
  { tickerLast := .ok (some 10), positions := .ok [],
    balance := .ok balHalf, orderResult := fun k => .ok (k + 1) }

/-- Oracle: the ticker fetch fails. -/
def envTickErr : Env :=
  { tickerLast := .error "boom", positions := .ok [],
    balance := .ok bal100, orderResult := fun k => .ok (k + 1) }

/-- Oracle: the balance fetch fails. -/
def envBalErr : Env :=
  { tickerLast := .ok (some 10), positions := .ok [],
    balance := .error "boom", orderResult := fun k => .ok (k + 1) }

/-- Oracle: an existing short position of size 3 on the default symbol. -/
def envShort3 : Env :=
  { tickerLast := .ok (some 10),
    positions := .ok [{ symbol := some "BTC/USDC:USDC", szi := some (-3) }],
    balance := .ok bal100, orderResult := fun k => .ok (k + 1) }

/-- Oracle: a position entry for the symbol with signed size 0. -/
def envZeroPos : Env :=
  { tickerLast := .ok (some 10),
    positions := .ok [{ symbol := some "BTC/USDC:USDC", szi := some 0 }],
    balance := .ok bal100, orderResult := fun k => .ok (k + 1) }

/-- Oracle: ticker returns no `last` price (price defaults to 0). -/
def envNoPrice : Env :=
  { tickerLast := .ok none, positions := .ok [],
    balance := .ok bal100, orderResult := fun k => .ok (k + 1) }

end TVHL

namespace TVHL

/-- An authenticated payload whose action is `" buy "` (normalises to `"BUY"`). -/
def pBuySpaced : Payload :=
  { secret := some "s3cret", action := some " buy ",
    symbol := some "BTC/USDC:USDC" }

/-!  ## Claim theorems  -/

/-- Claim C9: for every webhook request whose `secret` field does not equal
the configured `TRADINGVIEW_SECRET`, `handle_webhook` rejects the request
with HTTP 401 and its effect trace is empty — no ticker fetch, position
fetch, balance fetch, or order submission occurs. -/
theorem c9_unauthenticated_rejected_before_gateway
    (cfg : Config) (env : Env) (p : Payload)
    (h : p.secret ≠ cfg.TRADINGVIEW_SECRET) :
    handle_webhook cfg env p = (.httpError 401 .invalidSecret, []) := by
  simp [handle_webhook, h]

/-- Witness for C9: a concrete request with a wrong secret is answered 401
with no external effect. -/
theorem c9_witness :
    handle_webhook cfg0 envEntry pWrong = (.httpError 401 .invalidSecret, []) :=
  c9_unauthenticated_rejected_before_gateway cfg0 envEntry pWrong (by decide)

/-- Claim C10: an authenticated request whose action, after stripping and
uppercasing, is none of FLAT, BUY, SELL is rejected with HTTP 400 and no
order is submitted (the trace holds only the ticker fetch); moreover the
handler's behaviour depends on the payload only through the secret, the
symbol field and the normalised action, so `" buy "` and `"BUY"` behave
identically. -/
theorem c10_unknown_action_rejected
    (cfg : Config) (env : Env) (p : Payload) (last : Option Rat)
    (hauth : p.secret = cfg.TRADINGVIEW_SECRET)
    (hticker : env.tickerLast = .ok last)
    (h1 : normAction p ≠ "FLAT") (h2 : normAction p ≠ "BUY")
    (h3 : normAction p ≠ "SELL") :
    handle_webhook cfg env p =
      (.httpError 400 (.unknownAction (normAction p)),
       [.fetchTicker (normSymbol cfg p)]) ∧
    ∀ (env2 : Env) (q r : Payload), q.secret = r.secret → q.symbol = r.symbol →
      normAction q = normAction r →
      handle_webhook cfg env2 q = handle_webhook cfg env2 r := by
  constructor
  · simp only [handle_webhook, hauth, if_pos rfl, execCore, hticker]
    simp [h1, h2, h3]
  · intro env2 q r hsec hsym hact
    unfold handle_webhook normSymbol
    rw [hsec, hsym, hact]

/-- Witness for C10: action `" hold "` is rejected 400 as `"HOLD"` with no
order submitted, and `" buy "` behaves identically to `"BUY"`. -/
theorem c10_witness :
    handle_webhook cfg0 envEntry pHold =
      (.httpError 400 (.unknownAction "HOLD"),
       [.fetchTicker "BTC/USDC:USDC"]) ∧
    handle_webhook cfg0 envEntry pBuySpaced = handle_webhook cfg0 envEntry pBuy := by
  have h := c10_unknown_action_rejected cfg0 envEntry pHold (some 10)
    (by decide) rfl (by decide) (by decide) (by decide)
  refine ⟨?_, h.2 envEntry pBuySpaced pBuy rfl rfl (by decide)⟩
  have := h.1
  rwa [show normAction pHold = "HOLD" from by decide,
    show normSymbol cfg0 pHold = "BTC/USDC:USDC" from by decide] at this

/-- Helper: an authenticated BUY/SELL run with no open positions and free
margin at or below zero stops at the balance check with HTTP 400 and no
order submission and no notification. -/
theorem entryRun_insufficient
    (cfg : Config) (env : Env) (p : Payload) (last : Option Rat) (u : Usdc)
    (hauth : p.secret = cfg.TRADINGVIEW_SECRET)
    (hticker : env.tickerLast = .ok last)
    (hact : normAction p = "BUY" ∨ normAction p = "SELL")
    (hpos : env.positions = .ok [])
    (hu : get_perp_usdc env = .ok u)
    (hfree : u.free ≤ 0) :
    handle_webhook cfg env p =
      (.httpError 400 (.insufficientUsdc u.free u.hold),
       [.fetchTicker (normSymbol cfg p), .fetchPositions (normSymbol cfg p),
        .fetchBalance]) := by
  rcases hact with hact | hact <;>
  · simp only [handle_webhook, hauth, if_pos rfl, execCore, hticker, hact, hpos, hu]
    simp +decide [closeLoop, if_pos hfree]

/-- Helper: an authenticated BUY/SELL run with no open positions, positive
free margin and a successful order submission ends with a single entry
market order of the computed size followed by the success notification. -/
theorem entryRun_ok
    (cfg : Config) (env : Env) (p : Payload) (last : Option Rat) (u : Usdc)
    (i : Nat)
    (hauth : p.secret = cfg.TRADINGVIEW_SECRET)
    (hticker : env.tickerLast = .ok last)
    (hact : normAction p = "BUY" ∨ normAction p = "SELL")
    (hpos : env.positions = .ok [])
    (hu : get_perp_usdc env = .ok u)
    (hfree : 0 < u.free)
    (hord : env.orderResult 0 = .ok i) :
    handle_webhook cfg env p =
      (.ok (normAction p) i,
       [.fetchTicker (normSymbol cfg p), .fetchPositions (normSymbol cfg p),
        .fetchBalance,
        .createOrder (normSymbol cfg p) "market"
          (if normAction p = "BUY" then "buy" else "sell")
          (computeAmount u.free cfg.LEVERAGE (pyFloatOr0 last))
          (pyFloatOr0 last) false cfg.LEVERAGE,
        .notify (.orderOk (normSymbol cfg p) (normAction p) (pyFloatOr0 last))]) := by
  rcases hact with hact | hact <;>
  · simp only [handle_webhook, hauth, if_pos rfl, execCore, hticker, hact, hpos, hu]
    simp +decide [closeLoop, if_neg (not_le.mpr hfree), hord]

/-- Balance response with 0 free USDC. -/
def bal0 : BalanceResp :=
  { usdcTotal := some 0, usdcFree := some 0, usdcUsed := some 0,
    totalUsdc := none, freeUsdc := none, usedUsdc := none }

/-- Oracle: price 10, no open positions, zero free USDC. -/
def envBroke : Env :=
  { tickerLast := .ok (some 10), positions := .ok [],
    balance := .ok bal0, orderResult := fun k => .ok (k + 1) }

/-- Claim C4 counterexample: with fresh free margin 0.5 (at or below the
claimed threshold 1.0) the executor does not abort: it submits the entry
order (quantity (0.5·5)/10 = 1/4) and notifies success, and no
insufficient-balance notification is sent. -/
theorem c4_counterexample :
    handle_webhook cfg0 envHalf pBuy =
      (.ok "BUY" 1,
       [.fetchTicker "BTC/USDC:USDC", .fetchPositions "BTC/USDC:USDC",
        .fetchBalance,
        .createOrder "BTC/USDC:USDC" "market" "buy" (1/4) 10 false 5,
        .notify (.orderOk "BTC/USDC:USDC" "BUY" 10)]) := by
  have ha : normAction pBuy = "BUY" := by decide
  have hs : normSymbol cfg0 pBuy = "BTC/USDC:USDC" := by decide
  simp only [handle_webhook, ha, hs]
  norm_num +decide [execCore, envHalf, cfg0, pBuy, get_perp_usdc, balHalf,
    pyOr, pyFloatOr0, closeLoop, computeAmount]

/-- Claim C4 (amended): the insufficient-balance threshold is fixed at zero,
not configurable; on a BUY or SELL run the executor aborts before the entry
order only when the freshly fetched free margin is ≤ 0, answering HTTP 400
with the insufficient-balance message, and it sends no notification in that
case (the trace ends at the balance fetch). -/
theorem c4_amended_zero_threshold
    (cfg : Config) (env : Env) (p : Payload) (last : Option Rat) (u : Usdc)
    (hauth : p.secret = cfg.TRADINGVIEW_SECRET)
    (hticker : env.tickerLast = .ok last)
    (hact : normAction p = "BUY" ∨ normAction p = "SELL")
    (hpos : env.positions = .ok [])
    (hu : get_perp_usdc env = .ok u)
    (hfree : u.free ≤ 0) :
    handle_webhook cfg env p =
      (.httpError 400 (.insufficientUsdc u.free u.hold),
       [.fetchTicker (normSymbol cfg p), .fetchPositions (normSymbol cfg p),
        .fetchBalance]) :=
  entryRun_insufficient cfg env p last u hauth hticker hact hpos hu hfree

/-- Witness for C4 (amended): with zero free margin the concrete run stops
at the balance check with HTTP 400 and no order event. -/
theorem c4_witness :
    handle_webhook cfg0 envBroke pBuy =
      (.httpError 400 (.insufficientUsdc 0 0),
       [.fetchTicker "BTC/USDC:USDC", .fetchPositions "BTC/USDC:USDC",
        .fetchBalance]) := by
  have h := c4_amended_zero_threshold cfg0 envBroke pBuy (some 10) ⟨0, 0, 0⟩
    (by decide) rfl (Or.inl (by decide)) rfl
    (by norm_num [get_perp_usdc, envBroke, bal0, pyOr, pyFloatOr0]) le_rfl
  rw [show normSymbol cfg0 pBuy = "BTC/USDC:USDC" from by decide] at h
  simpa using h

/-- Claim C8 counterexample: when the ticker has no last price the price is
0 and the sizing yields 0, but no invalid-price condition is reported: the
run proceeds, submits the zero-size order, and notifies success. -/
theorem c8_counterexample :
    handle_webhook cfg0 envNoPrice pBuy =
      (.ok "BUY" 1,
       [.fetchTicker "BTC/USDC:USDC", .fetchPositions "BTC/USDC:USDC",
        .fetchBalance,
        .createOrder "BTC/USDC:USDC" "market" "buy" 0 0 false 5,
        .notify (.orderOk "BTC/USDC:USDC" "BUY" 0)]) := by
  have ha : normAction pBuy = "BUY" := by decide
  have hs : normSymbol cfg0 pBuy = "BTC/USDC:USDC" := by decide
  simp only [handle_webhook, ha, hs]
  norm_num +decide [execCore, envNoPrice, cfg0, pBuy, get_perp_usdc, bal100,
    pyOr, pyFloatOr0, closeLoop, computeAmount]

/-- Claim C8 (amended): for every price ≤ 0 the sizing computation yields
order size 0 rather than a division by zero or a numeric fault; however no
invalid-price condition is reported — the run continues and submits the
zero-size entry order, ending in success. -/
theorem c8_amended_zero_size_no_report
    (f : Rat) (L : Int) (pr : Rat) (hpr : pr ≤ 0)
    (cfg : Config) (env : Env) (p : Payload) (last : Option Rat) (u : Usdc)
    (i : Nat)
    (hauth : p.secret = cfg.TRADINGVIEW_SECRET)
    (hticker : env.tickerLast = .ok last)
    (hlast0 : pyFloatOr0 last ≤ 0)
    (hact : normAction p = "BUY" ∨ normAction p = "SELL")
    (hpos : env.positions = .ok [])
    (hu : get_perp_usdc env = .ok u)
    (hfree : 0 < u.free)
    (hord : env.orderResult 0 = .ok i) :
    computeAmount f L pr = 0 ∧
    handle_webhook cfg env p =
      (.ok (normAction p) i,
       [.fetchTicker (normSymbol cfg p), .fetchPositions (normSymbol cfg p),
        .fetchBalance,
        .createOrder (normSymbol cfg p) "market"
          (if normAction p = "BUY" then "buy" else "sell")
          0 (pyFloatOr0 last) false cfg.LEVERAGE,
        .notify (.orderOk (normSymbol cfg p) (normAction p) (pyFloatOr0 last))]) := by
  refine ⟨by simp [computeAmount, if_neg (not_lt.mpr hpr)], ?_⟩
  have h := entryRun_ok cfg env p last u i hauth hticker hact hpos hu hfree hord
  rwa [computeAmount, if_neg (not_lt.mpr hlast0)] at h

/-- Witness for C8 (amended): at price 0 the computed size is 0 and the
concrete run submits the zero-size order without any invalid-price report. -/
theorem c8_witness :
    computeAmount 100 5 0 = 0 ∧
    handle_webhook cfg0 envNoPrice pBuy =
      (.ok "BUY" 1,
       [.fetchTicker "BTC/USDC:USDC", .fetchPositions "BTC/USDC:USDC",
        .fetchBalance,
        .createOrder "BTC/USDC:USDC" "market" "buy" 0 0 false 5,
        .notify (.orderOk "BTC/USDC:USDC" "BUY" 0)]) := by
  have h := c8_amended_zero_size_no_report 100 5 0 le_rfl cfg0 envNoPrice pBuy
    none ⟨100, 0, 100⟩ 1 (by decide) rfl (by norm_num [pyFloatOr0, pyOr])
    (Or.inl (by decide)) rfl
    (by norm_num [get_perp_usdc, envNoPrice, bal100, pyOr, pyFloatOr0])
    (by norm_num) rfl
  rw [show normAction pBuy = "BUY" from by decide,
    show normSymbol cfg0 pBuy = "BTC/USDC:USDC" from by decide] at h
  have h2 := h.2
  rw [if_pos rfl] at h2
  refine ⟨h.1, ?_⟩
  rw [h2]
  norm_num [pyFloatOr0, pyOr, cfg0]

/-- Claim C3 counterexample: with free margin 100, leverage 5, price 10 and
safety factor 0.99 the code submits quantity 50 = (100·5)/10, while the
claimed formula (F·S·L)/P gives 99/2 = 49.5; the two differ, so no safety
factor is applied. -/
theorem c3_counterexample :
    Event.createOrder "BTC/USDC:USDC" "market" "buy" 50 10 false 5
        ∈ (handle_webhook cfg0 envEntry pBuy).2 ∧
    sizeSpec 100 5 10 (99/100) = 99/2 ∧ (50 : Rat) ≠ 99/2 := by
  have ha : normAction pBuy = "BUY" := by decide
  have hs : normSymbol cfg0 pBuy = "BTC/USDC:USDC" := by decide
  refine ⟨?_, by norm_num [sizeSpec], by norm_num⟩
  simp only [handle_webhook, ha, hs]
  norm_num +decide [execCore, envEntry, cfg0, pBuy, get_perp_usdc, bal100,
    pyOr, pyFloatOr0, closeLoop, computeAmount]

/-- Claim C3 (amended): on a BUY or SELL entry the submitted quantity is
`(free * leverage) / price` with no safety factor, so the requested notional
`quantity * price` equals exactly `free * leverage` (it is not strictly below
the available margin times leverage). -/
theorem c3_amended_size_formula
    (cfg : Config) (env : Env) (p : Payload) (pr : Rat) (u : Usdc) (i : Nat)
    (hauth : p.secret = cfg.TRADINGVIEW_SECRET)
    (hticker : env.tickerLast = .ok (some pr))
    (hpr : 0 < pr)
    (hact : normAction p = "BUY" ∨ normAction p = "SELL")
    (hpos : env.positions = .ok [])
    (hu : get_perp_usdc env = .ok u)
    (hfree : 0 < u.free)
    (hord : env.orderResult 0 = .ok i) :
    handle_webhook cfg env p =
      (.ok (normAction p) i,
       [.fetchTicker (normSymbol cfg p), .fetchPositions (normSymbol cfg p),
        .fetchBalance,
        .createOrder (normSymbol cfg p) "market"
          (if normAction p = "BUY" then "buy" else "sell")
          (u.free * (cfg.LEVERAGE : Rat) / pr) pr false cfg.LEVERAGE,
        .notify (.orderOk (normSymbol cfg p) (normAction p) pr)]) ∧
    (u.free * (cfg.LEVERAGE : Rat) / pr) * pr = u.free * (cfg.LEVERAGE : Rat) := by
  have hlast : pyFloatOr0 (some pr) = pr := by
    simp only [pyFloatOr0, pyOr]
    split_ifs with h
    · simp [h]
    · simp
  have h := entryRun_ok cfg env p (some pr) u i hauth hticker hact hpos hu hfree hord
  rw [hlast] at h
  rw [computeAmount, if_pos hpr] at h
  exact ⟨h, div_mul_cancel₀ _ (ne_of_gt hpr)⟩

/-- Witness for C3 (amended): concrete run with free 100, leverage 5,
price 10 submits quantity 50 and 50·10 = 100·5. -/
theorem c3_witness :
    handle_webhook cfg0 envEntry pBuy =
      (.ok "BUY" 1,
       [.fetchTicker "BTC/USDC:USDC", .fetchPositions "BTC/USDC:USDC",
        .fetchBalance,
        .createOrder "BTC/USDC:USDC" "market" "buy" 50 10 false 5,
        .notify (.orderOk "BTC/USDC:USDC" "BUY" 10)]) ∧
    (50 : Rat) * 10 = 100 * 5 := by
  have h := c3_amended_size_formula cfg0 envEntry pBuy 10 ⟨100, 0, 100⟩ 1
    (by decide) rfl (by norm_num) (Or.inl (by decide)) rfl
    (by norm_num [get_perp_usdc, envEntry, bal100, pyOr, pyFloatOr0]) (by norm_num) rfl
  rw [show normAction pBuy = "BUY" from by decide,
    show normSymbol cfg0 pBuy = "BTC/USDC:USDC" from by decide] at h
  refine ⟨?_, by norm_num⟩
  have h1 := h.1
  rw [if_pos rfl] at h1
  rw [h1]
  norm_num [cfg0]

/-- `float(some x or 0.0) = x` (also when `x = 0`). -/
theorem pyFloatOr0_some (x : Rat) : pyFloatOr0 (some x) = x := by
  simp only [pyFloatOr0, pyOr]
  split_ifs with h
  · simp [h]
  · simp

/-- Claim C6: on a BUY (resp. SELL) run with an existing opposing position of
signed size s, the executor first submits a reduce-only market order on the
closing side sized |s|, then sleeps the fixed settlement delay (2 s), and
only afterwards fetches margin and submits the sized entry order — the trace
order is close, sleep, balance fetch, entry. -/
theorem c6_flip_closes_before_entry
    (cfg : Config) (env : Env) (p : Payload) (pr s : Rat) (u : Usdc)
    (i j : Nat)
    (hauth : p.secret = cfg.TRADINGVIEW_SECRET)
    (hticker : env.tickerLast = .ok (some pr))
    (hpos : env.positions = .ok [{ symbol := some (normSymbol cfg p), szi := some s }])
    (hopp : (normAction p = "BUY" ∧ s < 0) ∨ (normAction p = "SELL" ∧ 0 < s))
    (hord0 : env.orderResult 0 = .ok i)
    (hu : get_perp_usdc env = .ok u)
    (hfree : 0 < u.free)
    (hord1 : env.orderResult 1 = .ok j) :
    handle_webhook cfg env p =
      (.ok (normAction p) j,
       [.fetchTicker (normSymbol cfg p), .fetchPositions (normSymbol cfg p),
        .createOrder (normSymbol cfg p) "market"
          (if s < 0 then "buy" else "sell") |s| pr true cfg.LEVERAGE,
        .notify (.closedOpposing (normSymbol cfg p) pr), .sleep 2,
        .fetchBalance,
        .createOrder (normSymbol cfg p) "market"
          (if normAction p = "BUY" then "buy" else "sell")
          (computeAmount u.free cfg.LEVERAGE pr) pr false cfg.LEVERAGE,
        .notify (.orderOk (normSymbol cfg p) (normAction p) pr)]) := by
  rcases hopp with ⟨hact, hs⟩ | ⟨hact, hs⟩
  · simp only [handle_webhook, hauth, if_pos rfl, execCore, hticker, hact, hpos]
    simp +decide [closeLoop, hord0, hs, hu, if_neg (not_le.mpr hfree), hord1,
      pyFloatOr0_some, if_pos hs]
  · simp only [handle_webhook, hauth, if_pos rfl, execCore, hticker, hact, hpos]
    simp +decide [closeLoop, hord0, hs, hu, if_neg (not_le.mpr hfree), hord1,
      pyFloatOr0_some, if_neg (lt_asymm hs)]

/-- Witness for C6: an existing short of size 3 with an incoming BUY yields a
reduce-only buy of 3, the settlement sleep, the margin fetch, and then the
new long entry of size 50, in that order. -/
theorem c6_witness :
    handle_webhook cfg0 envShort3 pBuy =
      (.ok "BUY" 2,
       [.fetchTicker "BTC/USDC:USDC", .fetchPositions "BTC/USDC:USDC",
        .createOrder "BTC/USDC:USDC" "market" "buy" 3 10 true 5,
        .notify (.closedOpposing "BTC/USDC:USDC" 10), .sleep 2,
        .fetchBalance,
        .createOrder "BTC/USDC:USDC" "market" "buy" 50 10 false 5,
        .notify (.orderOk "BTC/USDC:USDC" "BUY" 10)]) := by
  have h := c6_flip_closes_before_entry cfg0 envShort3 pBuy 10 (-3) ⟨100, 0, 100⟩
    1 2 (by decide) rfl
    (by rw [show normSymbol cfg0 pBuy = "BTC/USDC:USDC" from by decide]; rfl)
    (Or.inl ⟨by decide, by norm_num⟩) rfl
    (by norm_num [get_perp_usdc, envShort3, bal100, pyOr, pyFloatOr0])
    (by norm_num) rfl
  rw [show normAction pBuy = "BUY" from by decide,
    show normSymbol cfg0 pBuy = "BTC/USDC:USDC" from by decide] at h
  rw [h]
  norm_num [cfg0, computeAmount]

/-- Helper for C7: if every returned position either belongs to another
symbol or has signed size 0, the FLAT loop performs no order and falls
through. -/
theorem flatLoop_allZero (cfg : Config) (env : Env) (symbol : String)
    (price : Rat) :
    ∀ ps : List PosRaw,
      (∀ pos ∈ ps, pos.symbol ≠ some symbol ∨ pyFloatOr0 pos.szi = 0) →
      flatLoop cfg env symbol price ps = ([], .ok none) := by
  intro ps
  induction ps with
  | nil => intro _; rfl
  | cons pos rest ih =>
    intro h
    have hrest := ih fun q hq => h q (List.mem_cons_of_mem _ hq)
    rcases h pos (List.mem_cons_self pos rest) with hsym | hzero
    · simp only [flatLoop, if_neg hsym]
      exact hrest
    · by_cases hs : pos.symbol = some symbol
      · simp only [flatLoop, if_pos hs, if_pos hzero]
        exact hrest
      · simp only [flatLoop, if_neg hs]
        exact hrest

/-- Claim C7: a FLAT run where every position for the symbol has signed size
zero (or none exists) submits zero orders, notifies that no position
existed, and terminates with the no-position result. -/
theorem c7_flat_noop_when_no_position
    (cfg : Config) (env : Env) (p : Payload) (last : Option Rat)
    (ps : List PosRaw)
    (hauth : p.secret = cfg.TRADINGVIEW_SECRET)
    (hticker : env.tickerLast = .ok last)
    (hact : normAction p = "FLAT")
    (hpos : env.positions = .ok ps)
    (hzero : ∀ pos ∈ ps,
      pos.symbol ≠ some (normSymbol cfg p) ∨ pyFloatOr0 pos.szi = 0) :
    handle_webhook cfg env p =
      (.noPosition,
       [.fetchTicker (normSymbol cfg p), .fetchPositions (normSymbol cfg p),
        .notify (.flatNoPosition (normSymbol cfg p) (pyFloatOr0 last))]) := by
  have hfl := flatLoop_allZero cfg env (normSymbol cfg p) (pyFloatOr0 last)
    ps hzero
  simp only [handle_webhook, hauth, if_pos rfl, execCore, hticker, hact, hpos]
  simp +decide [hfl]

/-- Witness for C7: a FLAT request while the only position entry for the
symbol has size 0 issues zero orders and notifies the no-op. -/
theorem c7_witness :
    handle_webhook cfg0 envZeroPos pFlat =
      (.noPosition,
       [.fetchTicker "BTC/USDC:USDC", .fetchPositions "BTC/USDC:USDC",
        .notify (.flatNoPosition "BTC/USDC:USDC" 10)]) := by
  have h := c7_flat_noop_when_no_position cfg0 envZeroPos pFlat (some 10)
    [{ symbol := some "BTC/USDC:USDC", szi := some 0 }]
    (by decide) rfl (by decide) rfl
    (by
      intro pos hpos
      rw [List.mem_singleton] at hpos
      subst hpos
      right
      norm_num [pyFloatOr0, pyOr])
  rw [show normSymbol cfg0 pFlat = "BTC/USDC:USDC" from by decide] at h
  rw [h]
  norm_num [pyFloatOr0, pyOr]

/-- Claim C5 counterexample: a ticker-fetch failure terminates the run with
an HTTP 502 error response — an error response does escape to the webhook
caller — and a margin-fetch failure terminates with HTTP 502 while sending
no notification at all (the trace contains no notify event). -/
theorem c5_counterexample :
    handle_webhook cfg0 envTickErr pBuy =
      (.httpError 502 (.priceFetch "boom"),
       [.fetchTicker "BTC/USDC:USDC",
        .notify (.fetchTickerFailed "BTC/USDC:USDC" "boom")]) ∧
    handle_webhook cfg0 envBalErr pBuy =
      (.httpError 502 (.balanceFetch "boom"),
       [.fetchTicker "BTC/USDC:USDC", .fetchPositions "BTC/USDC:USDC",
        .fetchBalance]) := by
  have ha : normAction pBuy = "BUY" := by decide
  have hs : normSymbol cfg0 pBuy = "BTC/USDC:USDC" := by decide
  constructor <;>
  · simp only [handle_webhook, ha, hs]
    norm_num +decide [execCore, envTickErr, envBalErr, cfg0, pBuy,
      get_perp_usdc, bal100, pyOr, pyFloatOr0, closeLoop, computeAmount]

/-- Claim C5 (amended): every external-call failure terminates the run with
an HTTP error response (502 or 500) that is returned to the webhook caller;
ticker-fetch, position-fetch and order-submission failures additionally
produce a notification, but a margin-fetch failure produces none. -/
theorem c5_amended_failures_return_http_errors
    (cfg : Config) (env : Env) (p : Payload) (e : String)
    (hauth : p.secret = cfg.TRADINGVIEW_SECRET) :
    (env.tickerLast = .error e →
      handle_webhook cfg env p =
        (.httpError 502 (.priceFetch e),
         [.fetchTicker (normSymbol cfg p),
          .notify (.fetchTickerFailed (normSymbol cfg p) e)])) ∧
    (∀ last, env.tickerLast = .ok last → normAction p = "BUY" →
      env.positions = .error e →
      handle_webhook cfg env p =
        (.httpError 500 (.closeOpposing e),
         [.fetchTicker (normSymbol cfg p), .fetchPositions (normSymbol cfg p),
          .notify (.closeOpposingFailed (normSymbol cfg p) e)])) ∧
    (∀ last, env.tickerLast = .ok last → normAction p = "BUY" →
      env.positions = .ok [] → env.balance = .error e →
      handle_webhook cfg env p =
        (.httpError 502 (.balanceFetch e),
         [.fetchTicker (normSymbol cfg p), .fetchPositions (normSymbol cfg p),
          .fetchBalance])) ∧
    (∀ last u, env.tickerLast = .ok last → normAction p = "BUY" →
      env.positions = .ok [] → get_perp_usdc env = .ok u → 0 < u.free →
      env.orderResult 0 = .error e →
      handle_webhook cfg env p =
        (.httpError 500 (.orderFailed e),
         [.fetchTicker (normSymbol cfg p), .fetchPositions (normSymbol cfg p),
          .fetchBalance,
          .createOrder (normSymbol cfg p) "market" "buy"
            (computeAmount u.free cfg.LEVERAGE (pyFloatOr0 last))
            (pyFloatOr0 last) false cfg.LEVERAGE,
          .notify (.orderFailedMsg (normSymbol cfg p) "BUY" (pyFloatOr0 last) e)])) := by
  refine ⟨?_, ?_, ?_, ?_⟩
  · intro hticker
    simp only [handle_webhook, hauth, if_pos rfl, execCore, hticker]
    simp
  · intro last hticker hact hpose
    simp only [handle_webhook, hauth, if_pos rfl, execCore, hticker, hact, hpose]
    simp +decide []
  · intro last hticker hact hpos hbal
    simp only [handle_webhook, hauth, if_pos rfl, execCore, hticker, hact, hpos]
    simp +decide [closeLoop, get_perp_usdc, hbal]
  · intro last u hticker hact hpos hu hfree horder
    simp only [handle_webhook, hauth, if_pos rfl, execCore, hticker, hact, hpos, hu]
    simp +decide [closeLoop, if_neg (not_le.mpr hfree), horder]

/-- Witness for C5 (amended): the ticker-failure case at a concrete input —
HTTP 502 to the caller plus the failure notification. -/
theorem c5_witness :
    handle_webhook cfg0 envTickErr pBuy =
      (.httpError 502 (.priceFetch "boom"),
       [.fetchTicker "BTC/USDC:USDC",
        .notify (.fetchTickerFailed "BTC/USDC:USDC" "boom")]) := by
  have h := (c5_amended_failures_return_http_errors cfg0 envTickErr pBuy "boom"
    (by decide)).1 rfl
  rwa [show normSymbol cfg0 pBuy = "BTC/USDC:USDC" from by decide] at h

/-- Helper for C1: a request triggers a run exactly when it authenticates
(the executor body always begins with the ticker fetch; an unauthenticated
request has an empty trace). -/
theorem runTriggered_eq_auth (cfg : Config) (env : Env) (p : Payload) :
    runTriggered cfg env p = decide (p.secret = cfg.TRADINGVIEW_SECRET) := by
  by_cases h : p.secret = cfg.TRADINGVIEW_SECRET <;>
    simp [runTriggered, handle_webhook, h]

/-- Claim C1 counterexample: the signals SELL then BUY for the same symbol
(hence within any debounce window — the handler is time-independent and no
window exists) trigger two Trade Executor runs, not one, and the first run
acts on SELL even though BUY is present, submitting a sell entry order — no
BUY-over-SELL priority is applied. -/
theorem c1_counterexample :
    runsTriggered cfg0 [(envEntry, pSell), (envEntry, pBuy)] = 2 ∧
    handle_webhook cfg0 envEntry pSell =
      (.ok "SELL" 1,
       [.fetchTicker "BTC/USDC:USDC", .fetchPositions "BTC/USDC:USDC",
        .fetchBalance,
        .createOrder "BTC/USDC:USDC" "market" "sell" 50 10 false 5,
        .notify (.orderOk "BTC/USDC:USDC" "SELL" 10)]) := by
  constructor
  · simp [runsTriggered, runTriggered_eq_auth, cfg0, pSell, pBuy]
  · have ha : normAction pSell = "SELL" := by decide
    have hs : normSymbol cfg0 pSell = "BTC/USDC:USDC" := by decide
    simp only [handle_webhook, ha, hs]
    norm_num +decide [execCore, envEntry, cfg0, pSell, get_perp_usdc, bal100,
      pyOr, pyFloatOr0, closeLoop, computeAmount]

/-- Claim C1 (amended): there is no debouncing and no priority collapsing —
every authenticated request immediately triggers its own Trade Executor run,
so a sequence of signals triggers exactly as many runs as it has
authenticated signals, each acting on its own signal's action. -/
theorem c1_amended_one_run_per_authenticated_signal (cfg : Config) :
    ∀ l : List (Env × Payload),
      runsTriggered cfg l =
        l.countP (fun ep => decide (ep.2.secret = cfg.TRADINGVIEW_SECRET)) := by
  intro l
  induction l with
  | nil => rfl
  | cons ep rest ih =>
    simp [runsTriggered, List.countP_cons, ih, runTriggered_eq_auth,
      Nat.add_comm]

/-- An authenticated BUY payload for a second, different symbol. -/
def pBuyEth : Payload :=
  { secret := some "s3cret", action := some "BUY",
    symbol := some "ETH/USDC:USDC" }

/-!
### Concurrency model for the Execution Lock claim

`handle_webhook` contains no lock of any kind: the source acquires no
`asyncio.Lock` (or any other mutual-exclusion primitive) anywhere.  Under
asyncio, two concurrently submitted requests run as two tasks that may be
suspended and resumed at every `await` — and every element of a run's effect
trace (each gateway call, notification and sleep) is awaited in the source.
So the scheduler may realise any interleaving of the two tasks' effect
steps.  We model two concurrent handler invocations as two counters over
their effect traces: `TwoTaskStep` advances either task by one effect, and a
task with `0 < pc < length` has started its run but not finished it — the
run is in flight. -/

/-- One scheduler step: advance either of the two request tasks by one
awaited effect (`n₁`, `n₂` are the lengths of their effect traces). -/
inductive TwoTaskStep (n1 n2 : Nat) : Nat × Nat → Nat × Nat → Prop where
  | left (i j : Nat) : i < n1 → TwoTaskStep n1 n2 (i, j) (i + 1, j)
  | right (i j : Nat) : j < n2 → TwoTaskStep n1 n2 (i, j) (i, j + 1)

/-- Reachability of a scheduler state from another by interleaved steps. -/
def Reach (n1 n2 : Nat) : Nat × Nat → Nat × Nat → Prop :=
  Relation.ReflTransGen (TwoTaskStep n1 n2)

/-- Both Trade Executor runs are in flight: each task has performed at least
one effect of its run and has at least one still to perform. -/
def bothInFlight (n1 n2 : Nat) (s : Nat × Nat) : Prop :=
  (0 < s.1 ∧ s.1 < n1) ∧ (0 < s.2 ∧ s.2 < n2)

/-- The claimed mutual-exclusion property: no reachable scheduler state has
both runs in flight at the same instant. -/
def Serialized (n1 n2 : Nat) : Prop :=
  ∀ s, Reach n1 n2 (0, 0) s → ¬ bothInFlight n1 n2 s

/-- Claim C2 counterexample: for two concrete concurrent BUY requests on
different symbols (trace lengths taken from `handle_webhook` itself), the
state in which both runs are mid-execution is reachable, so the executions
are not serialized by any process-wide mutual-exclusion gate. -/
theorem c2_counterexample :
    ¬ Serialized (handle_webhook cfg0 envEntry pBuy).2.length
        (handle_webhook cfg0 envEntry pBuyEth).2.length := by
  have hlen1 : (handle_webhook cfg0 envEntry pBuy).2.length = 5 := by
    have ha : normAction pBuy = "BUY" := by decide
    have hs : normSymbol cfg0 pBuy = "BTC/USDC:USDC" := by decide
    simp only [handle_webhook, ha, hs]
    norm_num +decide [execCore, envEntry, cfg0, get_perp_usdc, bal100, pyOr,
      pyFloatOr0, closeLoop, computeAmount]
  have hlen2 : (handle_webhook cfg0 envEntry pBuyEth).2.length = 5 := by
    have ha : normAction pBuyEth = "BUY" := by decide
    have hs : normSymbol cfg0 pBuyEth = "ETH/USDC:USDC" := by decide
    simp only [handle_webhook, ha, hs]
    norm_num +decide [execCore, envEntry, cfg0, get_perp_usdc, bal100, pyOr,
      pyFloatOr0, closeLoop, computeAmount]
  intro hser
  refine hser (1, 1) ?_ ?_
  · refine Relation.ReflTransGen.tail (Relation.ReflTransGen.tail
      Relation.ReflTransGen.refl (TwoTaskStep.left 0 0 ?_))
      (TwoTaskStep.right 1 0 ?_)
    · rw [hlen1]; norm_num
    · rw [hlen2]; norm_num
  · rw [bothInFlight, hlen1, hlen2]
    norm_num

/-- Claim C2 (amended): the code contains no execution lock, so two Trade
Executor runs for different symbols can be simultaneously in flight: the
scheduler state (1, 1) — both concrete runs started and unfinished — is
reachable by interleaving their awaited effects. -/
theorem c2_amended_two_runs_in_flight :
    Reach (handle_webhook cfg0 envEntry pBuy).2.length
        (handle_webhook cfg0 envEntry pBuyEth).2.length (0, 0) (1, 1) ∧
    bothInFlight (handle_webhook cfg0 envEntry pBuy).2.length
        (handle_webhook cfg0 envEntry pBuyEth).2.length (1, 1) := by
  have hlen1 : (handle_webhook cfg0 envEntry pBuy).2.length = 5 := by
    have ha : normAction pBuy = "BUY" := by decide
    have hs : normSymbol cfg0 pBuy = "BTC/USDC:USDC" := by decide
    simp only [handle_webhook, ha, hs]
    norm_num +decide [execCore, envEntry, cfg0, get_perp_usdc, bal100, pyOr,
      pyFloatOr0, closeLoop, computeAmount]
  have hlen2 : (handle_webhook cfg0 envEntry pBuyEth).2.length = 5 := by
    have ha : normAction pBuyEth = "BUY" := by decide
    have hs : normSymbol cfg0 pBuyEth = "ETH/USDC:USDC" := by decide
    simp only [handle_webhook, ha, hs]
    norm_num +decide [execCore, envEntry, cfg0, get_perp_usdc, bal100, pyOr,
      pyFloatOr0, closeLoop, computeAmount]
  constructor
  · refine Relation.ReflTransGen.tail (Relation.ReflTransGen.tail
      Relation.ReflTransGen.refl (TwoTaskStep.left 0 0 ?_))
      (TwoTaskStep.right 1 0 ?_)
    · rw [hlen1]; norm_num
    · rw [hlen2]; norm_num
  · rw [bothInFlight, hlen1, hlen2]
    norm_num

end TVHL
